import Mathlib

/-!
# paymail-inspector: the root command (`cmd/root.go`)

A shallow embedding of the start-up code of the `cmd` package: the helper `er`,
the configuration loader `initConfig` and the flag registration done by `init`.

The Go code is imperative glue around three libraries (pflag/cobra, viper,
go-homedir).  It is embedded as state passing over `State`:

* the package-level variables that `root.go` hands to the flag library,
* the persistent flag set of `rootCmd` and the flag bindings held by viper,
* an append-only `trace` of the calls that leave the program (standard output,
  `os.Exit`, home-directory lookup, viper's configuration-file calls and the
  logger), each with the arguments passed and the result received.

What a library call answers is not decided by this program: the answers of
`homedir.Dir`, `viper.ReadInConfig` and `viper.ConfigFileUsed` are taken from an
`Env`, over which every theorem quantifies.
-/

namespace PaymailInspector

/-! ## Go values -/

/-- A Go `error` value: `none` is `nil`, `some msg` is an error whose `Error()` is `msg`. -/
abbrev GoError := Option String

/-- Log levels of the `chalker` package that `root.go` uses. -/
inductive LogLevel where
  | INFO
  | ERROR
  | SUCCESS
  deriving DecidableEq

/-- One call that leaves the program, with its arguments and (where it has one) its result. -/
inductive Event where
  /-- Text written to standard output. -/
  | stdout (text : String)
  /-- The call `os.Exit(code)`. -/
  | osExit (code : Int)
  /-- The call `homedir.Dir()` and the pair it returned. -/
  | homedirDir (home : String) (err : GoError)
  /-- The call `viper.SetConfigFile(path)`. -/
  | viperSetConfigFile (path : String)
  /-- The call `viper.AddConfigPath(path)`. -/
  | viperAddConfigPath (path : String)
  /-- The call `viper.SetConfigName(name)`. -/
  | viperSetConfigName (name : String)
  /-- The call `viper.AutomaticEnv()`. -/
  | viperAutomaticEnv
  /-- The call `viper.ReadInConfig()` and the error it returned. -/
  | viperReadInConfig (err : GoError)
  /-- The call `viper.ConfigFileUsed()` and the string it returned. -/
  | viperConfigFileUsed (file : String)
  /-- The call `chalker.Log(level, message)`. -/
  | chalkerLog (level : LogLevel) (message : String)
  deriving DecidableEq

/-! ## Flags (the part of pflag that `init` uses) -/

/-- Where a string flag stores its value: a package variable, or a cell allocated by
`FlagSet.String` (`p := new(string)`). -/
inductive StringPtr where
  | configFile
  | alloc (cell : Nat)
  deriving DecidableEq

/-- Where a boolean flag stores its value. -/
inductive BoolPtr where
  | generateDocs
  | skipTracing
  deriving DecidableEq

/-- The two `pflag.Value` implementations used: `*stringValue` and `*boolValue`, each a
pointer to the variable holding the flag's value. -/
inductive Value where
  | string (p : StringPtr)
  | bool (p : BoolPtr)
  deriving DecidableEq

/-- The fields of `pflag.Flag` that registration fills in. -/
structure Flag where
  /-- Field `Name`: the name as it appears on the command line. -/
  name : String
  /-- Field `Shorthand`: the one-letter abbreviation, or empty. -/
  shorthand : String
  /-- Field `Usage`: the help message. -/
  usage : String
  /-- Field `Value`: the pointer through which the value is read and set. -/
  value : Value
  /-- Field `DefValue`: the default value as text. -/
  defValue : String
  /-- Field `Changed`: whether the user set the value. -/
  changed : Bool
  /-- Field `NoOptDefVal`: the value taken when the flag is given without an argument. -/
  noOptDefVal : String
  deriving DecidableEq

/-- Functions handed to `cobra.OnInitialize`. -/
inductive Initializer where
  | initConfig
  deriving DecidableEq

/-! ## Program state -/

/-- The state the root command's start-up code reads and writes. -/
structure State where
  /-- Package variable `configFile`. -/
  configFile : String
  /-- Package variable `generateDocs`. -/
  generateDocs : Bool
  /-- Package variable `skipTracing`. -/
  skipTracing : Bool
  /-- Cells allocated by `FlagSet.String`, in allocation order. -/
  cells : List String
  /-- The flags of `rootCmd.PersistentFlags()`, in registration order. -/
  persistentFlags : List Flag
  /-- The functions registered with `cobra.OnInitialize`. -/
  initializers : List Initializer
  /-- The map `pflags` of viper: configuration key to the bound flag, the flag being
  identified by its key in the persistent flag set. -/
  viperPflags : List (String × String)
  /-- The calls that left the program so far, oldest first. -/
  trace : List Event
  deriving DecidableEq

/-- What the libraries answer when `initConfig` calls them. -/
structure Env where
  /-- The result of `homedir.Dir()`. -/
  homedirDir : String × GoError
  /-- The result of `viper.ReadInConfig()`. -/
  readInConfig : GoError
  /-- The result of `viper.ConfigFileUsed()`. -/
  configFileUsed : String
  deriving DecidableEq

/-- How a call ends: it returns a value, the process exits, or the goroutine panics. -/
inductive Outcome (α : Type) where
  | returned (a : α)
  | exited (code : Int)
  | panicked (msg : String)
  deriving DecidableEq

/-- A Go function body: from a state to how it ends and the state it leaves. -/
def Proc (α : Type) : Type := State → Outcome α × State

/-- Run `m`; if it returns, continue with `f`; an exit or a panic ends the run there. -/
def Proc.bind {α β : Type} (m : Proc α) (f : α → Proc β) : Proc β := fun s =>
  match m s with
  | (Outcome.returned a, s') => f a s'
  | (Outcome.exited c, s') => (Outcome.exited c, s')
  | (Outcome.panicked msg, s') => (Outcome.panicked msg, s')

/-- Return `a` without touching the state. -/
def Proc.pure {α : Type} (a : α) : Proc α := fun s => (Outcome.returned a, s)

instance : Monad Proc where
  pure := Proc.pure
  bind := Proc.bind

/-- Append one event to the trace. -/
def emit (e : Event) : Proc Unit := fun s =>
  (Outcome.returned (), { s with trace := s.trace ++ [e] })

/-- Read the current state. -/
def getState : Proc State := fun s => (Outcome.returned s, s)

/-! ## Library calls -/

/-- The text `fmt.Println` writes: the operands separated by spaces, then a newline. -/
def fmtSprintln (operands : List String) : String :=
  " ".intercalate operands ++ "\n"

/-- The call `fmt.Println(operands...)`. -/
def fmtPrintln (operands : List String) : Proc Unit :=
  emit (Event.stdout (fmtSprintln operands))

/-- The call `os.Exit(code)`: the process ends here. -/
def osExit (code : Int) : Proc Unit := fun s =>
  (Outcome.exited code, { s with trace := s.trace ++ [Event.osExit code] })

/-- The call `homedir.Dir()`. -/
def homedirDir (env : Env) : Proc (String × GoError) := do
  emit (Event.homedirDir env.homedirDir.1 env.homedirDir.2)
  pure env.homedirDir

/-- The call `viper.ReadInConfig()`. -/
def viperReadInConfig (env : Env) : Proc GoError := do
  emit (Event.viperReadInConfig env.readInConfig)
  pure env.readInConfig

/-- The call `viper.ConfigFileUsed()`. -/
def viperConfigFileUsed (env : Env) : Proc String := do
  emit (Event.viperConfigFileUsed env.configFileUsed)
  pure env.configFileUsed

/-! ## Constants of `root.go` -/

/-- Config file and application name. -/
def configDefault : String := "paymail-inspector"

/-- Default location for command documentation. -/
def docsLocation : String := "docs/commands"

/-- Key of the flag that carries the bsvalias version. -/
def flagBsvAlias : String := "bsvalias"

/-! ## `er` and `initConfig` -/

/-- The helper `er`: on a non-nil error print it and exit with status 1. -/
def er (err : GoError) : Proc Unit :=
  match err with
  | some msg => do
    fmtPrintln ["Error:", msg]
    osExit 1
  | none => pure ()

/-- The function `initConfig`: choose where viper looks for the configuration, then read it. -/
def initConfig (env : Env) : Proc Unit := do
  let s ← getState
  if s.configFile ≠ "" then
    emit (Event.viperSetConfigFile s.configFile)
  else
    let r ← homedirDir env
    er r.2
    emit (Event.viperAddConfigPath r.1)
    emit (Event.viperSetConfigName ("." ++ configDefault))
  emit Event.viperAutomaticEnv
  let err ← viperReadInConfig env
  if err = none then
    let used ← viperConfigFileUsed env
    emit (Event.chalkerLog LogLevel.INFO ("...loaded config file: " ++ used))

/-! ## Memory behind the flags -/

/-- Store the string `v` through the pointer `p`. -/
def State.writeString (s : State) (p : StringPtr) (v : String) : State :=
  match p with
  | StringPtr.configFile => { s with configFile := v }
  | StringPtr.alloc cell => { s with cells := s.cells.set cell v }

/-- Load the string the pointer `p` points to. -/
def State.readString (s : State) (p : StringPtr) : String :=
  match p with
  | StringPtr.configFile => s.configFile
  | StringPtr.alloc cell => s.cells.getD cell ""

/-- Store the boolean `v` through the pointer `p`. -/
def State.writeBool (s : State) (p : BoolPtr) (v : Bool) : State :=
  match p with
  | BoolPtr.generateDocs => { s with generateDocs := v }
  | BoolPtr.skipTracing => { s with skipTracing := v }

/-- Load the boolean the pointer `p` points to. -/
def State.readBool (s : State) (p : BoolPtr) : Bool :=
  match p with
  | BoolPtr.generateDocs => s.generateDocs
  | BoolPtr.skipTracing => s.skipTracing

/-- The function `strconv.FormatBool`. -/
def formatBool (b : Bool) : String := if b then "true" else "false"

/-- The function `strconv.ParseBool`: the accepted spellings of true and false. -/
def parseBool (text : String) : Option Bool :=
  if text ∈ ["1", "t", "T", "TRUE", "true", "True"] then some true
  else if text ∈ ["0", "f", "F", "FALSE", "false", "False"] then some false
  else none

/-- The method `Value.String()`: the current value as text. -/
def Value.text (s : State) : Value → String
  | Value.string p => s.readString p
  | Value.bool p => formatBool (s.readBool p)

/-! ## pflag and cobra calls made by `init` -/

/-- The method `FlagSet.Lookup(name)` on the persistent flags: the flag of that name, or nil. -/
def lookup (name : String) (flags : List Flag) : Option Flag :=
  flags.find? (fun f => f.name = name)

/-- The call `cobra.OnInitialize(y)`: append to the list of initializers. -/
def cobraOnInitialize (y : Initializer) : Proc Unit := fun s =>
  (Outcome.returned (), { s with initializers := s.initializers ++ [y] })

/-- The method `FlagSet.AddFlag`: a name or a shorthand can be registered once; registering
it again panics, as does a shorthand longer than one byte. -/
def addFlag (flag : Flag) : Proc Unit := fun s =>
  if (lookup flag.name s.persistentFlags).isSome then
    (Outcome.panicked ("flag redefined: " ++ flag.name), s)
  else
    let s' := { s with persistentFlags := s.persistentFlags ++ [flag] }
    if flag.shorthand = "" then (Outcome.returned (), s')
    else if flag.shorthand.utf8ByteSize > 1 then
      (Outcome.panicked ("shorthand is more than one ASCII character: " ++ flag.shorthand), s')
    else if s.persistentFlags.any (fun f => f.shorthand = flag.shorthand) then
      (Outcome.panicked ("unable to redefine shorthand: " ++ flag.shorthand), s')
    else (Outcome.returned (), s')

/-- The method `FlagSet.VarPF(value, name, shorthand, usage)`: build the flag, whose default
text is the value's current text, and add it. The flag is returned by its name. -/
def varPF (value : Value) (name shorthand usage : String) : Proc String := do
  let s ← getState
  addFlag { name := name, shorthand := shorthand, usage := usage, value := value,
            defValue := value.text s, changed := false, noOptDefVal := "" }
  pure name

/-- The constructor `newStringValue(val, p)`: store the default, wrap the pointer. -/
def newStringValue (val : String) (p : StringPtr) : Proc Value := fun s =>
  (Outcome.returned (Value.string p), s.writeString p val)

/-- The constructor `newBoolValue(val, p)`: store the default, wrap the pointer. -/
def newBoolValue (val : Bool) (p : BoolPtr) : Proc Value := fun s =>
  (Outcome.returned (Value.bool p), s.writeBool p val)

/-- The method `FlagSet.StringVarP(p, name, shorthand, value, usage)`. -/
def stringVarP (p : StringPtr) (name shorthand value usage : String) : Proc Unit := do
  let v ← newStringValue value p
  let _ ← varPF v name shorthand usage
  pure ()

/-- The method `FlagSet.StringVar(p, name, value, usage)`. -/
def stringVar (p : StringPtr) (name value usage : String) : Proc Unit :=
  stringVarP p name "" value usage

/-- The assignment `flag.NoOptDefVal = text` through the flag pointer. -/
def setNoOptDefVal (name text : String) : Proc Unit := fun s =>
  (Outcome.returned (),
   { s with persistentFlags :=
       s.persistentFlags.map (fun f => if f.name = name then { f with noOptDefVal := text } else f) })

/-- The method `FlagSet.BoolVarP(p, name, shorthand, value, usage)`. -/
def boolVarP (p : BoolPtr) (name shorthand : String) (value : Bool) (usage : String) :
    Proc Unit := do
  let v ← newBoolValue value p
  let flag ← varPF v name shorthand usage
  setNoOptDefVal flag "true"

/-- The method `FlagSet.BoolVar(p, name, value, usage)`. -/
def boolVar (p : BoolPtr) (name : String) (value : Bool) (usage : String) : Proc Unit :=
  boolVarP p name "" value usage

/-- The allocation `new(string)`: a fresh cell holding the empty string. -/
def newString : Proc StringPtr := fun s =>
  (Outcome.returned (StringPtr.alloc s.cells.length), { s with cells := s.cells ++ [""] })

/-- The method `FlagSet.String(name, value, usage)`: the flag stores into a fresh cell,
whose pointer is returned. -/
def flagString (name value usage : String) : Proc StringPtr := do
  let p ← newString
  stringVarP p name "" value usage
  pure p

/-- The method `FlagSet.Lookup(name)` as a call: the flag pointer (the flag's name in the
set), or nil. -/
def flagLookup (name : String) : Proc (Option String) := fun s =>
  (Outcome.returned ((lookup name s.persistentFlags).map (fun f => f.name)), s)

/-- Lower-casing of a configuration key (viper stores keys through `strings.ToLower`);
only ASCII letters are mapped, which is all the keys of `root.go` contain. -/
def toLower (key : String) : String := String.mk (key.data.map Char.toLower)

/-- The call `viper.BindPFlag(key, flag)`: a nil flag is an error, otherwise the lower-cased
key is bound to the flag. -/
def viperBindPFlag (key : String) (flag : Option String) : Proc GoError := fun s =>
  match flag with
  | none => (Outcome.returned (some ("flag for \"" ++ key ++ "\" is nil")), s)
  | some name =>
    (Outcome.returned none,
     { s with viperPflags := (toLower key, name) :: s.viperPflags.filter (fun b => b.1 ≠ toLower key) })

/-! ## `init` -/

/-- The function `init` of `root.go`. The constant `paymail.DefaultBsvAliasVersion` is
declared in the `paymail` package and is taken as the parameter `defaultBsvAliasVersion`. -/
def init (defaultBsvAliasVersion : String) : Proc Unit := do
  cobraOnInitialize Initializer.initConfig
  stringVar StringPtr.configFile "config" ""
    ("config file (default is $HOME/." ++ configDefault ++ ".yaml)")
  boolVar BoolPtr.generateDocs "docs" false
    ("Generate docs from all commands (./" ++ docsLocation ++ ")")
  boolVarP BoolPtr.skipTracing "skip-tracing" "t" false "Turn off request tracing information"
  let _ ← flagString flagBsvAlias defaultBsvAliasVersion ("The " ++ flagBsvAlias ++ " version")
  let flag ← flagLookup flagBsvAlias
  let err ← viperBindPFlag flagBsvAlias flag
  er err

/-- The state when `init` starts: every package variable of `root.go` has its zero value,
`rootCmd` is the command literal (no flag registered yet) and nothing has been bound. -/
def initialState : State :=
  { configFile := "", generateDocs := false, skipTracing := false, cells := [],
    persistentFlags := [], initializers := [], viperPflags := [], trace := [] }

/-! ## Setting flags and reading the configuration -/

/-- The method `FlagSet.Set(name, value)`, through which the command-line parser stores every
flag the caller passes (`--name=value`, `--name`, `-n`): an unknown name is an error; a string
flag stores the text; a boolean flag stores the parsed text, or stores false and reports an
error when the text is no boolean; a flag set without error is marked as changed. -/
def flagSet (name value : String) : Proc GoError := fun s =>
  match lookup name s.persistentFlags with
  | none => (Outcome.returned (some ("no such flag -" ++ name)), s)
  | some flag =>
    let mark : State → State := fun st =>
      { st with persistentFlags :=
          st.persistentFlags.map (fun f => if f.name = name then { f with changed := true } else f) }
    match flag.value with
    | Value.string p => (Outcome.returned none, mark (s.writeString p value))
    | Value.bool p =>
      match parseBool value with
      | some b => (Outcome.returned none, mark (s.writeBool p b))
      | none =>
        (Outcome.returned (some ("invalid argument \"" ++ value ++ "\" for \"--" ++ name ++ "\" flag")),
         s.writeBool p false)

/-- The state after the caller's flag settings, applied in order. -/
def applySets : List (String × String) → State → State
  | [], s => s
  | (name, value) :: rest, s => applySets rest (flagSet name value s).2

/-- The value layers of viper other than bound flags, each a lookup by lower-cased key:
explicit `viper.Set` calls, environment variables, the configuration file, the key/value
store and the registered defaults. -/
structure Sources where
  /-- Values stored by `viper.Set`. -/
  override : String → Option String
  /-- Values found in the environment. -/
  env : String → Option String
  /-- Values found in the configuration file. -/
  config : String → Option String
  /-- Values found in the key/value store. -/
  kvstore : String → Option String
  /-- Values registered by `viper.SetDefault`. -/
  defaults : String → Option String

/-- The flag bound to `key` in viper, if any. -/
def boundFlag (s : State) (key : String) : Option Flag :=
  match s.viperPflags.lookup (toLower key) with
  | some name => lookup name s.persistentFlags
  | none => none

/-- The first value among the layers below a changed flag, in viper's order: environment,
configuration file, key/value store, registered default. -/
def Sources.stored (src : Sources) (k : String) : Option String :=
  (src.env k).orElse (fun _ => (src.config k).orElse (fun _ =>
    (src.kvstore k).orElse (fun _ => src.defaults k)))

/-- The call `viper.GetString(key)`, in viper's order of precedence: an explicit override, a
bound flag the caller changed, the environment, the configuration file, the key/value store,
a registered default, and last the value of a bound flag the caller did not change. -/
def viperGetString (src : Sources) (s : State) (key : String) : String :=
  let k := toLower key
  match src.override k with
  | some v => v
  | none =>
    match (boundFlag s key).filter (fun f => f.changed) with
    | some f => f.value.text s
    | none =>
      match src.stored k with
      | some v => v
      | none =>
        match boundFlag s key with
        | some f => f.value.text s
        | none => ""

/-- Sources that hold no value at all. -/
def noSources : Sources :=
  { override := fun _ => none, env := fun _ => none, config := fun _ => none,
    kvstore := fun _ => none, defaults := fun _ => none }

/-- The calls `initConfig` makes when started in state `s` with library answers `env`:
the trace is emptied before the call, so that what it holds afterwards is what this call
added. -/
def initConfigRun (env : Env) (s : State) : Outcome Unit × State :=
  initConfig env { s with trace := [] }

/-- Sources in which only the environment holds a value for `bsvalias`. -/
def envSources : Sources :=
  { override := fun _ => none,
    env := fun k => if k = "bsvalias" then some "0.9" else none,
    config := fun _ => none, kvstore := fun _ => none, defaults := fun _ => none }

/-! ## States met in the proofs -/

/-- The flags `init` registers, with the given `Changed` marks. -/
def flagsWith (d : String) (c1 c2 c3 c4 : Bool) : List Flag :=
  [{ name := "config", shorthand := "",
     usage := "config file (default is $HOME/.paymail-inspector.yaml)",
     value := Value.string StringPtr.configFile, defValue := "", changed := c1,
     noOptDefVal := "" },
   { name := "docs", shorthand := "",
     usage := "Generate docs from all commands (./docs/commands)",
     value := Value.bool BoolPtr.generateDocs, defValue := "false", changed := c2,
     noOptDefVal := "true" },
   { name := "skip-tracing", shorthand := "t",
     usage := "Turn off request tracing information",
     value := Value.bool BoolPtr.skipTracing, defValue := "false", changed := c3,
     noOptDefVal := "true" },
   { name := "bsvalias", shorthand := "", usage := "The bsvalias version",
     value := Value.string (StringPtr.alloc 0), defValue := d,
     changed := c4, noOptDefVal := "" }]

/-- The state `init` leaves when run from `initialState`. -/
def afterInit (defaultBsvAliasVersion : String) : State :=
  { configFile := "", generateDocs := false, skipTracing := false,
    cells := [defaultBsvAliasVersion],
    persistentFlags := flagsWith defaultBsvAliasVersion false false false false,
    initializers := [Initializer.initConfig],
    viperPflags := [("bsvalias", "bsvalias")],
    trace := [] }

/-! ## Theorems -/

section Unfolding

/-- Sequencing in `Proc`, unfolded. -/
theorem bind_run {α β : Type} (m : Proc α) (f : α → Proc β) (s : State) :
    (m >>= f) s = Proc.bind m f s := rfl

/-- Returning in `Proc`, unfolded. -/
theorem pure_run {α : Type} (a : α) (s : State) :
    (Pure.pure a : Proc α) s = (Outcome.returned a, s) := rfl

end Unfolding

section InitConfig

/-- Emptying the trace first loses nothing: `initConfig` ends the same way from `s`, and
the trace it leaves is the old trace followed by the calls of this run. -/
theorem initConfig_appends (env : Env) (s : State) :
    (initConfig env s).1 = (initConfigRun env s).1 ∧
    (initConfig env s).2.trace = s.trace ++ (initConfigRun env s).2.trace := by
  rcases env with ⟨⟨home, herr⟩, rerr, used⟩
  by_cases hc : s.configFile = "" <;> cases herr <;> cases rerr <;>
    simp [initConfigRun, initConfig, bind_run, pure_run, Proc.bind, getState, emit, homedirDir,
      viperReadInConfig, viperConfigFileUsed, er, osExit, fmtPrintln, hc]

end InitConfig

section Init

/-- The key `bsvalias` is already in lower case. -/
theorem toLower_flagBsvAlias : toLower "bsvalias" = "bsvalias" := by decide

/-- The shorthand `t` is one byte long. -/
theorem shorthand_t_size : ¬ ("t".utf8ByteSize > 1) := by decide

/-- Running `init` from `initialState` returns and leaves `afterInit`. -/
theorem init_run (d : String) :
    init d initialState = (Outcome.returned (), afterInit d) := by
  simp [init, initialState, afterInit, flagsWith, bind_run, pure_run, Proc.bind, cobraOnInitialize,
    stringVar, stringVarP, boolVar, boolVarP, newStringValue, newBoolValue, varPF, addFlag,
    setNoOptDefVal, flagString, newString, flagLookup, viperBindPFlag, er, getState, lookup,
    State.writeString, State.writeBool, State.readString, State.readBool, Value.text,
    formatBool, configDefault, docsLocation, flagBsvAlias, toLower_flagBsvAlias,
    shorthand_t_size]

/-- One `FlagSet.Set` on the flags of `init`: only `Changed` marks move, viper's bindings
stay, `skipTracing` is written only through `skip-tracing` and the cells only through
`bsvalias`. -/
theorem flagSet_step (d n v : String) (s : State) (c1 c2 c3 c4 : Bool)
    (h : s.persistentFlags = flagsWith d c1 c2 c3 c4) :
    (∃ e1 e2 e3 e4, (flagSet n v s).2.persistentFlags = flagsWith d e1 e2 e3 e4 ∧
      (n ≠ "bsvalias" → e4 = c4) ∧ (n = "bsvalias" → e4 = true)) ∧
    (flagSet n v s).2.viperPflags = s.viperPflags ∧
    (flagSet n v s).2.skipTracing =
      (if n = "skip-tracing" then decide (parseBool v = some true) else s.skipTracing) ∧
    (flagSet n v s).2.cells = (if n = "bsvalias" then s.cells.set 0 v else s.cells) := by
  by_cases h1 : n = "config"
  · subst h1
    simp [flagSet, h, flagsWith, lookup, State.writeString]
  by_cases h2 : n = "docs"
  · subst h2
    cases hp : parseBool v <;>
      simp [flagSet, h, flagsWith, lookup, State.writeBool, hp]
  by_cases h3 : n = "skip-tracing"
  · subst h3
    cases hp : parseBool v <;>
      simp [flagSet, h, flagsWith, lookup, State.writeBool, hp]
  by_cases h4 : n = "bsvalias"
  · subst h4
    simp [flagSet, h, flagsWith, lookup, State.writeString]
  · have e1 : ¬ ("config" = n) := fun e => h1 e.symm
    have e2 : ¬ ("docs" = n) := fun e => h2 e.symm
    have e3 : ¬ ("skip-tracing" = n) := fun e => h3 e.symm
    have e4 : ¬ ("bsvalias" = n) := fun e => h4 e.symm
    simp [flagSet, h, flagsWith, lookup, h1, h2, h3, h4, e1, e2, e3, e4]

/-- The state after `init` carries the flags of `init`, none of them changed. -/
theorem afterInit_flags (d : String) :
    (afterInit d).persistentFlags = flagsWith d false false false false := rfl

/-- Any sequence of settings keeps the flags of `init` and viper's bindings; settings that
do not name `bsvalias` leave its `Changed` mark and the cells alone. -/
theorem applySets_flags (d : String) (sets : List (String × String)) :
    ∀ (s : State) (c1 c2 c3 c4 : Bool), s.persistentFlags = flagsWith d c1 c2 c3 c4 →
      (∃ e1 e2 e3 e4, (applySets sets s).persistentFlags = flagsWith d e1 e2 e3 e4 ∧
        ((∀ p ∈ sets, p.1 ≠ "bsvalias") → e4 = c4)) ∧
      (applySets sets s).viperPflags = s.viperPflags ∧
      (applySets sets s).cells.length = s.cells.length ∧
      ((∀ p ∈ sets, p.1 ≠ "bsvalias") → (applySets sets s).cells = s.cells) := by
  induction sets with
  | nil =>
    intro s c1 c2 c3 c4 h
    exact ⟨⟨c1, c2, c3, c4, h, fun _ => rfl⟩, rfl, rfl, fun _ => rfl⟩
  | cons p rest ih =>
    intro s c1 c2 c3 c4 h
    obtain ⟨n, v⟩ := p
    obtain ⟨⟨e1, e2, e3, e4, hf, hkeep, _⟩, hv, _, hc⟩ := flagSet_step d n v s c1 c2 c3 c4 h
    obtain ⟨⟨g1, g2, g3, g4, hg, hgk⟩, hgv, hgl, hgc⟩ := ih (flagSet n v s).2 e1 e2 e3 e4 hf
    refine ⟨⟨g1, g2, g3, g4, hg, ?_⟩, ?_, ?_, ?_⟩
    · intro hall
      have hn : n ≠ "bsvalias" := hall (n, v) (List.mem_cons_self _ _)
      rw [hgk (fun q hq => hall q (List.mem_cons_of_mem _ hq)), hkeep hn]
    · simp only [applySets]
      rw [hgv, hv]
    · simp only [applySets]
      rw [hgl, hc]
      split <;> simp
    · intro hall
      have hn : n ≠ "bsvalias" := hall (n, v) (List.mem_cons_self _ _)
      simp only [applySets]
      rw [hgc (fun q hq => hall q (List.mem_cons_of_mem _ hq)), hc, if_neg hn]

/-- After any sequence of settings on the flags of `init`, `skipTracing` is true only if it
was true before or some setting named `skip-tracing` with a text that parses to true. -/
theorem applySets_skipTracing (d : String) (sets : List (String × String)) :
    ∀ (s : State) (c1 c2 c3 c4 : Bool), s.persistentFlags = flagsWith d c1 c2 c3 c4 →
      (applySets sets s).skipTracing = true →
      s.skipTracing = true ∨ ∃ v, ("skip-tracing", v) ∈ sets ∧ parseBool v = some true := by
  induction sets with
  | nil =>
    intro s c1 c2 c3 c4 _ ht
    exact Or.inl ht
  | cons p rest ih =>
    intro s c1 c2 c3 c4 h ht
    obtain ⟨n, v⟩ := p
    obtain ⟨⟨e1, e2, e3, e4, hf, _, _⟩, _, hsk, _⟩ := flagSet_step d n v s c1 c2 c3 c4 h
    rcases ih (flagSet n v s).2 e1 e2 e3 e4 hf ht with hnow | ⟨w, hw, hpw⟩
    · rw [hsk] at hnow
      by_cases hn : n = "skip-tracing"
      · rw [if_pos hn] at hnow
        exact Or.inr ⟨v, by rw [hn]; exact List.mem_cons_self _ _, of_decide_eq_true hnow⟩
      · rw [if_neg hn] at hnow
        exact Or.inl hnow
    · exact Or.inr ⟨w, List.mem_cons_of_mem _ hw, hpw⟩

/-- What viper answers for `bsvalias` on the flags of `init` when nothing was stored by
`viper.Set`: the cell of the flag if the flag was changed, otherwise a stored value if
there is one, otherwise the cell of the flag. -/
theorem viperGetString_bsvalias (d : String) (src : Sources) (s : State)
    (c1 c2 c3 c4 : Bool) (h : s.persistentFlags = flagsWith d c1 c2 c3 c4)
    (hb : s.viperPflags = [("bsvalias", "bsvalias")]) (ho : src.override "bsvalias" = none) :
    viperGetString src s "bsvalias" =
      if c4 = true then s.cells.getD 0 ""
      else (src.stored "bsvalias").getD (s.cells.getD 0 "") := by
  cases c4 <;> cases hs : src.stored "bsvalias" <;>
    simp [viperGetString, boundFlag, lookup, h, hb, ho, hs, flagsWith, toLower_flagBsvAlias,
      Value.text, State.readString, List.lookup, Option.filter]

end Init

/-- C3. The helper `er` ends the process if and only if its argument is a non-nil error; on
an error with message `msg` it writes the line `Error: msg` to standard output and then exits
with status 1, and on nil it returns leaving the state, trace included, as it was. -/
theorem er_exits_iff_error (err : GoError) (msg : String) (s : State) :
    ((∃ code, (er err s).1 = Outcome.exited code) ↔ err ≠ none) ∧
    ((er err s).1 = Outcome.exited 1 ↔ err ≠ none) ∧
    er (some msg) s =
      (Outcome.exited 1,
       { s with trace := s.trace ++ [Event.stdout ("Error: " ++ msg ++ "\n"), Event.osExit 1] }) ∧
    er none s = (Outcome.returned (), s) := by
  refine ⟨?_, ?_, ?_, ?_⟩
  · cases err <;> simp [er, bind_run, pure_run, Proc.bind, fmtPrintln, emit, osExit]
  · cases err <;> simp [er, bind_run, pure_run, Proc.bind, fmtPrintln, emit, osExit]
  · simp [er, bind_run, Proc.bind, fmtPrintln, emit, osExit, fmtSprintln, String.intercalate,
      String.intercalate.go]
  · simp [er, pure_run]

/-- C2. Whatever `viper.ReadInConfig` answers, `initConfig` returns: it ends the process
(with status 1) exactly when `configFile` is empty and the home-directory lookup fails, it
never panics, and the read is performed exactly when it returns. The INFO line
`...loaded config file: <file>` is logged if and only if the read was performed and
answered nil. -/
theorem initConfig_read_failure_not_fatal (env : Env) (s : State) :
    ((initConfigRun env s).1 = Outcome.returned () ↔
      ¬ (s.configFile = "" ∧ env.homedirDir.2 ≠ none)) ∧
    ((∃ code, (initConfigRun env s).1 = Outcome.exited code) ↔
      (s.configFile = "" ∧ env.homedirDir.2 ≠ none)) ∧
    ((initConfigRun env s).1 = Outcome.exited 1 ↔
      (s.configFile = "" ∧ env.homedirDir.2 ≠ none)) ∧
    (Event.viperReadInConfig env.readInConfig ∈ (initConfigRun env s).2.trace ↔
      (initConfigRun env s).1 = Outcome.returned ()) ∧
    ((∃ level message, Event.chalkerLog level message ∈ (initConfigRun env s).2.trace) ↔
      Event.viperReadInConfig none ∈ (initConfigRun env s).2.trace) ∧
    (Event.chalkerLog LogLevel.INFO ("...loaded config file: " ++ env.configFileUsed)
        ∈ (initConfigRun env s).2.trace ↔
      Event.viperReadInConfig none ∈ (initConfigRun env s).2.trace) ∧
    (Event.viperReadInConfig none ∈ (initConfigRun env s).2.trace ↔
      ((initConfigRun env s).1 = Outcome.returned () ∧ env.readInConfig = none)) := by
  rcases env with ⟨⟨home, herr⟩, rerr, used⟩
  by_cases hc : s.configFile = "" <;> cases herr <;> cases rerr <;>
    simp [initConfigRun, initConfig, bind_run, pure_run, Proc.bind, getState, emit, homedirDir,
      viperReadInConfig, viperConfigFileUsed, er, osExit, fmtPrintln, hc]

/-- C4. `init` returns and leaves on the root command's persistent flags a string flag
named `bsvalias` whose default text is `paymail.DefaultBsvAliasVersion` and whose value holds
that default; the configuration key `bsvalias` is bound in viper to that same flag. Hence
with no override (no value for the key in viper's own layers, and no setting of `bsvalias`
among the flags the caller passes) `viper.GetString("bsvalias")` is the default constant;
and when the caller sets the flag, the value set is the configured version unless
`viper.Set` stored another. -/
theorem init_bsvalias_default (defaultBsvAliasVersion : String) (src src2 : Sources)
    (sets : List (String × String)) (v : String)
    (ho : src.override "bsvalias" = none) (hs : src.stored "bsvalias" = none)
    (hsets : ∀ p ∈ sets, p.1 ≠ "bsvalias")
    (ho2 : src2.override "bsvalias" = none) :
    (init defaultBsvAliasVersion initialState).1 = Outcome.returned () ∧
    lookup flagBsvAlias (init defaultBsvAliasVersion initialState).2.persistentFlags =
      some { name := "bsvalias", shorthand := "", usage := "The bsvalias version",
             value := Value.string (StringPtr.alloc 0), defValue := defaultBsvAliasVersion,
             changed := false, noOptDefVal := "" } ∧
    (Value.string (StringPtr.alloc 0)).text (init defaultBsvAliasVersion initialState).2 =
      defaultBsvAliasVersion ∧
    (init defaultBsvAliasVersion initialState).2.viperPflags.lookup flagBsvAlias =
      some "bsvalias" ∧
    boundFlag (init defaultBsvAliasVersion initialState).2 flagBsvAlias =
      lookup flagBsvAlias (init defaultBsvAliasVersion initialState).2.persistentFlags ∧
    viperGetString src (applySets sets (init defaultBsvAliasVersion initialState).2)
      flagBsvAlias = defaultBsvAliasVersion ∧
    viperGetString src2
      (flagSet flagBsvAlias v (applySets sets (init defaultBsvAliasVersion initialState).2)).2
      flagBsvAlias = v := by
  rw [init_run]
  obtain ⟨⟨e1, e2, e3, e4, hf, hkeep⟩, hb, hlen, hcells⟩ :=
    applySets_flags defaultBsvAliasVersion sets (afterInit defaultBsvAliasVersion)
      false false false false (afterInit_flags defaultBsvAliasVersion)
  have he4 : e4 = false := hkeep hsets
  subst he4
  obtain ⟨⟨g1, g2, g3, g4, hg, _, hg4⟩, hgb, _, hgc⟩ :=
    flagSet_step defaultBsvAliasVersion "bsvalias" v
      (applySets sets (afterInit defaultBsvAliasVersion)) e1 e2 e3 false hf
  have hg4t : g4 = true := hg4 rfl
  subst hg4t
  refine ⟨rfl, ?_, ?_, ?_, ?_, ?_, ?_⟩
  · simp [afterInit, flagsWith, lookup, flagBsvAlias]
  · simp [afterInit, Value.text, State.readString]
  · simp [afterInit, flagBsvAlias, List.lookup]
  · simp [afterInit, flagsWith, boundFlag, lookup, flagBsvAlias, toLower_flagBsvAlias, List.lookup]
  · have hb2 : (applySets sets (afterInit defaultBsvAliasVersion)).viperPflags =
        [("bsvalias", "bsvalias")] := by rw [hb]; rfl
    show viperGetString src (applySets sets (afterInit defaultBsvAliasVersion)) "bsvalias" = _
    rw [viperGetString_bsvalias defaultBsvAliasVersion src _ e1 e2 e3 false hf hb2 ho, hs,
      hcells hsets]
    simp [afterInit]
  · have hb3 : (flagSet "bsvalias" v
        (applySets sets (afterInit defaultBsvAliasVersion))).2.viperPflags =
        [("bsvalias", "bsvalias")] := by rw [hgb, hb]; rfl
    show viperGetString src2
      (flagSet "bsvalias" v (applySets sets (afterInit defaultBsvAliasVersion))).2 "bsvalias" = _
    rw [viperGetString_bsvalias defaultBsvAliasVersion src2 _ g1 g2 g3 true hg hb3 ho2, hgc,
      hcells hsets]
    simp [afterInit]

/-- Witness for C4: the default is `1.0`, the caller passes `--skip-tracing=true` and
`--config=/etc/paymail.yaml`; with no value stored anywhere viper answers `1.0`, and after
`--bsvalias=1.1` it answers `1.1` even though the environment holds `0.9`. -/
theorem init_bsvalias_default_witness :
    noSources.override "bsvalias" = none ∧ noSources.stored "bsvalias" = none ∧
    (∀ p ∈ [("skip-tracing", "true"), ("config", "/etc/paymail.yaml")], p.1 ≠ "bsvalias") ∧
    envSources.override "bsvalias" = none ∧
    envSources.stored "bsvalias" = some "0.9" ∧
    viperGetString noSources
      (applySets [("skip-tracing", "true"), ("config", "/etc/paymail.yaml")]
        (init "1.0" initialState).2) flagBsvAlias = "1.0" ∧
    viperGetString envSources
      (flagSet flagBsvAlias "1.1"
        (applySets [("skip-tracing", "true"), ("config", "/etc/paymail.yaml")]
          (init "1.0" initialState).2)).2 flagBsvAlias = "1.1" :=
  ⟨rfl, rfl, by decide, rfl, rfl,
   (init_bsvalias_default "1.0" noSources envSources
      [("skip-tracing", "true"), ("config", "/etc/paymail.yaml")] "1.1"
      rfl rfl (by decide) rfl).2.2.2.2.2⟩

/-- C5. `init` returns and leaves on the root command's persistent flags a boolean flag
named `skip-tracing` with shorthand `t`, storing through the pointer to the variable
`skipTracing`, with default text `false`; after `init` the variable is false. Whatever
flags the caller then sets, `skipTracing` is false unless one of the settings names
`skip-tracing` with a text that parses to true; and setting it to `true` does turn it on. -/
theorem init_skip_tracing_default (defaultBsvAliasVersion : String)
    (sets : List (String × String)) :
    (init defaultBsvAliasVersion initialState).1 = Outcome.returned () ∧
    lookup "skip-tracing" (init defaultBsvAliasVersion initialState).2.persistentFlags =
      some { name := "skip-tracing", shorthand := "t",
             usage := "Turn off request tracing information",
             value := Value.bool BoolPtr.skipTracing, defValue := "false",
             changed := false, noOptDefVal := "true" } ∧
    ((init defaultBsvAliasVersion initialState).2.persistentFlags.filter
        (fun f => f.value = Value.bool BoolPtr.skipTracing)).map Flag.name = ["skip-tracing"] ∧
    (init defaultBsvAliasVersion initialState).2.skipTracing = false ∧
    ((applySets sets (init defaultBsvAliasVersion initialState).2).skipTracing = false ∨
      ∃ v, ("skip-tracing", v) ∈ sets ∧ parseBool v = some true) ∧
    (applySets [("skip-tracing", "true")]
      (init defaultBsvAliasVersion initialState).2).skipTracing = true := by
  rw [init_run]
  refine ⟨rfl, ?_, ?_, rfl, ?_, ?_⟩
  · simp [afterInit, flagsWith, lookup]
  · simp [afterInit, flagsWith]
  · cases hsk : (applySets sets (afterInit defaultBsvAliasVersion)).skipTracing
    · exact Or.inl rfl
    · rcases applySets_skipTracing defaultBsvAliasVersion sets (afterInit defaultBsvAliasVersion)
        false false false false (afterInit_flags defaultBsvAliasVersion) hsk with h0 | hex
      · exact absurd h0 (by simp [afterInit])
      · exact Or.inr hex
  · simp [applySets, flagSet, afterInit, flagsWith, lookup, State.writeBool, parseBool]

/-- C1, refuted as stated. With `configFile` empty and a failing home-directory lookup the
process exits with status 1 before any search path or config name is handed to viper. -/
theorem initConfig_empty_flag_home_failure :
    initialState.configFile = "" ∧
    (initConfigRun ⟨("", some "blank output when reading home directory"), none, ""⟩
        initialState).1 = Outcome.exited 1 ∧
    Event.viperAddConfigPath "" ∉
      (initConfigRun ⟨("", some "blank output when reading home directory"), none, ""⟩
        initialState).2.trace ∧
    Event.viperSetConfigName ".paymail-inspector" ∉
      (initConfigRun ⟨("", some "blank output when reading home directory"), none, ""⟩
        initialState).2.trace ∧
    (initConfigRun ⟨("", some "blank output when reading home directory"), none, ""⟩
        initialState).2.trace =
      [Event.homedirDir "" (some "blank output when reading home directory"),
       Event.stdout "Error: blank output when reading home directory\n",
       Event.osExit 1] := by
  decide

/-- C1, amended. `initConfig` selects the configuration source by `configFile`. The call
`viper.SetConfigFile` is made exactly when `configFile` is non-empty, and with that very
path; `homedir.Dir` is called exactly when `configFile` is empty, so with a non-empty
`configFile` no lookup failure can end the process. When `configFile` is empty and the
lookup succeeds (and only then) the directory it returned is handed to
`viper.AddConfigPath` and the name `.paymail-inspector` to `viper.SetConfigName`; that name
is the file name in the help text of the `config` flag registered by `init`, without its
extension `.yaml`. -/
theorem initConfig_selects_source (env : Env) (s : State) (defaultBsvAliasVersion : String) :
    (∀ path, Event.viperSetConfigFile path ∈ (initConfigRun env s).2.trace ↔
      (s.configFile ≠ "" ∧ path = s.configFile)) ∧
    ((∃ home err, Event.homedirDir home err ∈ (initConfigRun env s).2.trace) ↔
      s.configFile = "") ∧
    ((∃ code, (initConfigRun env s).1 = Outcome.exited code) ↔
      (s.configFile = "" ∧ env.homedirDir.2 ≠ none)) ∧
    (∀ path, Event.viperAddConfigPath path ∈ (initConfigRun env s).2.trace ↔
      (s.configFile = "" ∧ env.homedirDir.2 = none ∧ path = env.homedirDir.1)) ∧
    (∀ name, Event.viperSetConfigName name ∈ (initConfigRun env s).2.trace ↔
      (s.configFile = "" ∧ env.homedirDir.2 = none ∧ name = ".paymail-inspector")) ∧
    (lookup "config" (init defaultBsvAliasVersion initialState).2.persistentFlags).map Flag.usage =
      some ("config file (default is $HOME/" ++ ".paymail-inspector" ++ ".yaml)") := by
  rcases env with ⟨⟨home, herr⟩, rerr, used⟩
  refine ⟨?_, ?_, ?_, ?_, ?_, ?_⟩
  · intro path
    by_cases hc : s.configFile = "" <;> cases herr <;> cases rerr <;>
      simp [initConfigRun, initConfig, bind_run, pure_run, Proc.bind, getState, emit, homedirDir,
        viperReadInConfig, viperConfigFileUsed, er, osExit, fmtPrintln, hc]
  · by_cases hc : s.configFile = "" <;> cases herr <;> cases rerr <;>
      simp [initConfigRun, initConfig, bind_run, pure_run, Proc.bind, getState, emit, homedirDir,
        viperReadInConfig, viperConfigFileUsed, er, osExit, fmtPrintln, hc]
  · by_cases hc : s.configFile = "" <;> cases herr <;> cases rerr <;>
      simp [initConfigRun, initConfig, bind_run, pure_run, Proc.bind, getState, emit, homedirDir,
        viperReadInConfig, viperConfigFileUsed, er, osExit, fmtPrintln, hc]
  · intro path
    by_cases hc : s.configFile = "" <;> cases herr <;> cases rerr <;>
      simp [initConfigRun, initConfig, bind_run, pure_run, Proc.bind, getState, emit, homedirDir,
        viperReadInConfig, viperConfigFileUsed, er, osExit, fmtPrintln, hc]
  · intro name
    by_cases hc : s.configFile = "" <;> cases herr <;> cases rerr <;>
      simp [initConfigRun, initConfig, bind_run, pure_run, Proc.bind, getState, emit, homedirDir,
        viperReadInConfig, viperConfigFileUsed, er, osExit, fmtPrintln, hc, configDefault]
  · rw [init_run]
    simp [afterInit, flagsWith, lookup]

end PaymailInspector
